import Mathlib

/-!
Verification of the Gmail MCP tool dispatch layer.

This development gives a shallow embedding of the tool handlers found in
src/gmail_mcp/dependencies.py, src/gmail_mcp/tools/management.py and
src/gmail_mcp/tools/advanced.py, and proves properties of the request/response
envelope contract, parameter normalization, and the per-operation handlers.

Python strings are embedded as Lean strings; the handful of Python string
methods the code uses (strip, split on a comma, startswith, replace) are
re-implemented structurally over the character list so that the kernel can
evaluate them on concrete inputs.

Each handler is embedded as a pure function from a request context, a
behavior oracle for the Gmail service collaborator, and the tool parameters,
to the produced response together with the trace of calls performed on the
service collaborator.  An exception raised by a service method is modelled by
the oracle returning an error string (Python str of the exception); the
handler bodies translate the try/except structure of the source.
-/

namespace GmailMCP

/-! ## Python string primitives -/

/-- Characters stripped by Python str.strip with no argument (whitespace). -/
def pyStripChars (cs : List Char) : List Char :=
  ((cs.dropWhile Char.isWhitespace).reverse.dropWhile Char.isWhitespace).reverse

/-- Python value.strip(): remove leading and trailing whitespace. -/
def pyStrip (s : String) : String := ⟨pyStripChars s.data⟩

/-- Helper for Python value.split(): accumulate the current segment. -/
def pySplitCommaAux (acc : List Char) : List Char → List (List Char)
  | [] => [acc.reverse]
  | c :: cs => if c = ',' then acc.reverse :: pySplitCommaAux [] cs else pySplitCommaAux (c :: acc) cs

/-- Python value.split(. ,): split on every comma; empty input yields one empty segment. -/
def pySplitComma (s : String) : List String :=
  (pySplitCommaAux [] s.data).map fun cs => ⟨cs⟩

/-- Python s.startswith(pre). -/
def pyStartsWith (s pre : String) : Bool := pre.data.isPrefixOf s.data

/-- Fuel-based worker for Python str.replace: replaces every non-overlapping
occurrence of the pattern, scanning left to right. -/
def pyReplaceAux (pat repl : List Char) : Nat → List Char → List Char
  | 0, s => s
  | _ + 1, [] => []
  | fuel + 1, c :: rest =>
    if pat.isPrefixOf (c :: rest) then
      repl ++ pyReplaceAux pat repl fuel (List.drop (pat.length - 1) rest)
    else
      c :: pyReplaceAux pat repl fuel rest

/-- Python s.replace(pat, repl): replace all non-overlapping occurrences. -/
def pyReplace (s pat repl : String) : String :=
  if pat.data.isEmpty then s
  else ⟨pyReplaceAux pat.data repl.data s.data.length s.data⟩

/-- Python truthiness of an optional string: None and the empty string are falsy. -/
def pyTruthy : Option String → Bool
  | none => false
  | some s => !s.data.isEmpty

/-! ## JSON values

The handlers return JSON text produced by json.dumps over a Python dict; the
observable content is the object structure, which we model directly.  Dict
fields keep the insertion order of the source literal. -/

/-- JSON values as produced by the handlers. -/
inductive Json : Type where
  | null : Json
  | bool (b : Bool) : Json
  | num (n : Int) : Json
  | str (s : String) : Json
  | arr (xs : List Json) : Json
  | obj (fields : List (String × Json)) : Json

/-- Look up a field of a JSON object (none on non-objects and missing keys). -/
def Json.getField : Json → String → Option Json
  | .obj fields, k => (fields.find? fun p => p.1 == k).map fun p => p.2
  | _, _ => none

/-- Serialize an optional Python string: None becomes JSON null. -/
def Json.ofOptStr : Option String → Json
  | none => .null
  | some s => .str s

/-- Serialize an optional Python list of strings: None becomes JSON null. -/
def Json.ofOptStrList : Option (List String) → Json
  | none => .null
  | some l => .arr (l.map .str)

/-! ## Request context and token extraction (dependencies.py) -/

/-- The incoming HTTP request: we model only the header map used by the code. -/
structure Request where
  headers : List (String × String)

/-- Header lookup by exact key, as used for the Authorization header. -/
def headersGet (hs : List (String × String)) (k : String) : Option String :=
  (hs.find? fun p => p.1 == k).map fun p => p.2

/-- The MCP request context wrapper around the request. -/
structure RequestContext where
  request : Request

/-- The MCP context; request_context is None when no request is attached. -/
structure Context where
  request_context : Option RequestContext

/-- A raised fastapi HTTPException. -/
structure HTTPException where
  status_code : Nat
  detail : String
deriving DecidableEq, Repr

/-- Embedding of dependencies.get_access_token: extract the bearer token from
the Authorization header, raising HTTPException 401 when the context or a
well-formed header is missing.  The token is obtained by the source's
auth_header.replace of the scheme marker by the empty string. -/
def get_access_token (ctx : Context) : Except HTTPException String :=
  match ctx.request_context with
  | none => .error ⟨401, "No request context available"⟩
  | some rc =>
    match headersGet rc.request.headers "Authorization" with
    | none => .error ⟨401, "No valid access token provided"⟩
    | some auth_header =>
      if auth_header.data.isEmpty || !pyStartsWith auth_header "Bearer " then
        .error ⟨401, "No valid access token provided"⟩
      else
        .ok (pyReplace auth_header "Bearer " "")

/-- OAuth token information carried by the service client. -/
structure TokenInfo where
  access_token : String
  email : String
  scope : String
deriving DecidableEq, Repr

/-- Embedding of dependencies.parse_comma_separated_list: None or blank input
gives None; otherwise split on commas, strip each item, keep non-empty items. -/
def parse_comma_separated_list (value : Option String) : Option (List String) :=
  match value with
  | none => none
  | some v =>
    if (pyStrip v).data.isEmpty then none
    else some (((pySplitComma v).map pyStrip).filter fun item => !item.data.isEmpty)

/-! ## Request value objects (gmail_mcp.models)

The pydantic request models are plain value holders; we declare exactly the
fields the handlers set, all optional fields defaulting to None as in the
models' usage. -/

/-- Request object for send_message, as constructed by send and reply. -/
structure SendEmailRequest where
  «to» : Option (List String) := none
  subject : String := ""
  body_text : Option String := none
  body_html : Option String := none
  cc : Option (List String) := none
  bcc : Option (List String) := none
  attachments : Option (List String) := none
  thread_id : Option String := none
  in_reply_to : Option String := none
deriving DecidableEq, Repr

/-- Request object for modify_message_labels. -/
structure ModifyLabelsRequest where
  add_label_ids : Option (List String) := none
  remove_label_ids : Option (List String) := none
deriving DecidableEq, Repr

/-- Request object for create_label. -/
structure CreateLabelRequest where
  name : String
  message_list_visibility : String
  label_list_visibility : String
deriving DecidableEq, Repr

/-- Request object for forward_message. -/
structure ForwardEmailRequest where
  «to» : Option (List String) := none
  cc : Option (List String) := none
  bcc : Option (List String) := none
  additional_message : Option String := none
deriving DecidableEq, Repr

/-- Request object for create_draft. -/
structure CreateDraftRequest where
  «to» : Option (List String) := none
  subject : String := ""
  body_text : Option String := none
  body_html : Option String := none
  cc : Option (List String) := none
  bcc : Option (List String) := none
  thread_id : Option String := none
  in_reply_to : Option String := none
deriving DecidableEq, Repr

/-- Message format enumeration (minimal, full, metadata, raw, compact). -/
inductive MessageFormat : Type where
  | minimal | full | metadata | raw | compact
deriving DecidableEq, Repr

/-- Request object for list_threads. -/
structure ThreadListRequest where
  max_results : Int := 10
  label_ids : Option (List String) := none
  q : Option String := none
  include_spam_trash : Bool := false
  page_token : Option String := none
  after : Option String := none
  before : Option String := none
deriving DecidableEq, Repr

/-- Request object for list_drafts. -/
structure DraftListRequest where
  max_results : Int := 10
  page_token : Option String := none
  message_format : MessageFormat := .compact
  q : Option String := none
  after : Option String := none
  before : Option String := none
deriving DecidableEq, Repr

/-! ## Service response models

The handlers only read a few fields of the responses; opaque pydantic models
whose only use is model_dump() are modelled by the JSON value that dump
produces. -/

/-- An attachment object; only its model_dump is consumed. -/
structure Attachment where
  dump : Json

/-- The message object returned by get_message, with the fields read by the
reply and get-attachments handlers. -/
structure EmailMessage where
  sender : Option String := none
  recipient : Option String := none
  subject : Option String := none
  thread_id : Option String := none
  attachments : List Attachment := []

/-- The message object returned by modify_message_labels; only label_ids is read. -/
structure ModifiedMessage where
  label_ids : List String

/-- The thread object returned by get_thread. -/
structure GmailThread where
  dump : Json
  messages : List Json

/-- The response of list_threads. -/
structure ThreadListResponse where
  threads : List Json
  next_page_token : Option String := none
  result_size_estimate : Int := 0

/-- The response of list_drafts. -/
structure DraftListResponse where
  drafts : List Json
  next_page_token : Option String := none
  result_size_estimate : Int := 0

/-- A draft object; only its model_dump is consumed. -/
structure Draft where
  dump : Json

/-- A label object; only its model_dump is consumed. -/
structure GmailLabel where
  dump : Json

/-! ## The Gmail service collaborator -/

/-- The GmailService collaborator: the token it was built with, plus a
behavior oracle for each async method.  A method returning Except.error e
models the method raising an exception whose str() is e. -/
structure GmailService where
  token_info : TokenInfo
  send_message : SendEmailRequest → Except String String
  get_message : String → Except String EmailMessage
  modify_message_labels : String → ModifyLabelsRequest → Except String ModifiedMessage
  delete_message : String → Except String Bool
  create_label : CreateLabelRequest → Except String GmailLabel
  forward_message : String → ForwardEmailRequest → Except String String
  list_threads : ThreadListRequest → Except String ThreadListResponse
  get_thread : String → MessageFormat → Except String GmailThread
  create_draft : CreateDraftRequest → Except String String
  list_drafts : DraftListRequest → Except String DraftListResponse
  get_draft : String → MessageFormat → Except String Draft
  send_draft : String → Except String String
  get_attachment : String → String → Except String Attachment

/-- Embedding of dependencies.get_gmail_service: attach a TokenInfo built from
the access token to the service client; no network call occurs here.  The
behavior oracle net supplies what the subsequent network calls will return. -/
def get_gmail_service (net : GmailService) (access_token : String) : GmailService :=
  { net with token_info := { access_token := access_token, email := "", scope := "" } }

/-- One performed call on the Gmail service collaborator, with its arguments. -/
inductive ServiceCall : Type where
  | send_message (req : SendEmailRequest)
  | get_message (message_id : String)
  | modify_message_labels (message_id : String) (req : ModifyLabelsRequest)
  | delete_message (message_id : String)
  | create_label (req : CreateLabelRequest)
  | forward_message (message_id : String) (req : ForwardEmailRequest)
  | list_threads (req : ThreadListRequest)
  | get_thread (thread_id : String) (format : MessageFormat)
  | create_draft (req : CreateDraftRequest)
  | list_drafts (req : DraftListRequest)
  | get_draft (draft_id : String) (format : MessageFormat)
  | send_draft (draft_id : String)
  | get_attachment (message_id attachment_id : String)
deriving DecidableEq, Repr

/-- The outcome of a tool handler invocation: a returned JSON response, or a
propagated HTTPException. -/
inductive HandlerResult : Type where
  | response (j : Json)
  | raised (e : HTTPException)

/-- The uniform error envelope produced by the except branches of most handlers. -/
def errEnvelope (e : String) : Json :=
  .obj [("error", .str e), ("success", .bool false)]

/-- Python join-or-default pattern of the success messages:
sep.join(l) if l else default. -/
def joinOr (l : Option (List String)) (d : String) : String :=
  match l with
  | some xs => if xs.isEmpty then d else String.intercalate ", " xs
  | none => d

/-! ## Tool handlers: management.py -/

/-- Embedding of gmail_send_email.  After token extraction and the body
validation check, it builds a SendEmailRequest from the normalized parameters
and performs one send_message call; an exception there is re-raised as an
HTTPException with status 500. -/
def gmail_send_email (ctx : Context) (net : GmailService) («to» subject : String)
    (body_text body_html cc bcc attachments : Option String) :
    HandlerResult × List ServiceCall :=
  match get_access_token ctx with
  | .error e => (.raised e, [])
  | .ok access_token =>
    let gmail_service := get_gmail_service net access_token
    if !pyTruthy body_text && !pyTruthy body_html then
      (.response (.obj [("error", .str "Either body_text or body_html must be provided")]), [])
    else
      let to_list := parse_comma_separated_list (some «to»)
      let cc_list := parse_comma_separated_list cc
      let bcc_list := parse_comma_separated_list bcc
      let attachments_list := parse_comma_separated_list attachments
      let request : SendEmailRequest :=
        { «to» := to_list, subject := subject, body_text := body_text,
          body_html := body_html, cc := cc_list, bcc := bcc_list,
          attachments := attachments_list }
      match gmail_service.send_message request with
      | .error e => (.raised ⟨500, "Failed to send email: " ++ e⟩, [.send_message request])
      | .ok message_id =>
        (.response (.obj [
          ("success", .bool true),
          ("message_id", .str message_id),
          ("message", .str ("Email sent successfully to " ++ joinOr to_list "recipients"))]),
         [.send_message request])

/-- Embedding of gmail_reply_to_email.  It fetches the original message,
derives the recipient from its sender and the subject by the Re: check, then
performs one send_message call threaded on the original message. -/
def gmail_reply_to_email (ctx : Context) (net : GmailService) (message_id : String)
    (body_text body_html : Option String) (reply_all : Bool) :
    HandlerResult × List ServiceCall :=
  match get_access_token ctx with
  | .error e => (.raised e, [])
  | .ok access_token =>
    let gmail_service := get_gmail_service net access_token
    if !pyTruthy body_text && !pyTruthy body_html then
      (.response (.obj [("error", .str "Either body_text or body_html must be provided")]), [])
    else
      match gmail_service.get_message message_id with
      | .error e => (.response (errEnvelope e), [.get_message message_id])
      | .ok original_message =>
        let to_addresses :=
          if pyTruthy original_message.sender then [original_message.sender.getD ""] else []
        -- the reply_all branch of the source only executes a pass statement
        let subject := original_message.subject.getD ""
        let subject := if !pyStartsWith subject "Re:" then "Re: " ++ subject else subject
        let request : SendEmailRequest :=
          { «to» := some to_addresses, subject := subject, body_text := body_text,
            body_html := body_html, thread_id := original_message.thread_id,
            in_reply_to := some message_id }
        match gmail_service.send_message request with
        | .error e =>
          (.response (errEnvelope e), [.get_message message_id, .send_message request])
        | .ok reply_message_id =>
          (.response (.obj [
            ("success", .bool true),
            ("reply_message_id", .str reply_message_id),
            ("original_message_id", .str message_id),
            ("message", .str "Reply sent successfully")]),
           [.get_message message_id, .send_message request])

/-- Embedding of gmail_mark_as_read: remove the UNREAD label. -/
def gmail_mark_as_read (ctx : Context) (net : GmailService) (message_id : String) :
    HandlerResult × List ServiceCall :=
  match get_access_token ctx with
  | .error e => (.raised e, [])
  | .ok access_token =>
    let gmail_service := get_gmail_service net access_token
    let request : ModifyLabelsRequest := { remove_label_ids := some ["UNREAD"] }
    match gmail_service.modify_message_labels message_id request with
    | .error e => (.response (errEnvelope e), [.modify_message_labels message_id request])
    | .ok _ =>
      (.response (.obj [
        ("success", .bool true),
        ("message_id", .str message_id),
        ("message", .str "Email marked as read")]),
       [.modify_message_labels message_id request])

/-- Embedding of gmail_mark_as_unread: add the UNREAD label. -/
def gmail_mark_as_unread (ctx : Context) (net : GmailService) (message_id : String) :
    HandlerResult × List ServiceCall :=
  match get_access_token ctx with
  | .error e => (.raised e, [])
  | .ok access_token =>
    let gmail_service := get_gmail_service net access_token
    let request : ModifyLabelsRequest := { add_label_ids := some ["UNREAD"] }
    match gmail_service.modify_message_labels message_id request with
    | .error e => (.response (errEnvelope e), [.modify_message_labels message_id request])
    | .ok _ =>
      (.response (.obj [
        ("success", .bool true),
        ("message_id", .str message_id),
        ("message", .str "Email marked as unread")]),
       [.modify_message_labels message_id request])

/-- Embedding of gmail_archive_email: remove the INBOX label. -/
def gmail_archive_email (ctx : Context) (net : GmailService) (message_id : String) :
    HandlerResult × List ServiceCall :=
  match get_access_token ctx with
  | .error e => (.raised e, [])
  | .ok access_token =>
    let gmail_service := get_gmail_service net access_token
    let request : ModifyLabelsRequest := { remove_label_ids := some ["INBOX"] }
    match gmail_service.modify_message_labels message_id request with
    | .error e => (.response (errEnvelope e), [.modify_message_labels message_id request])
    | .ok _ =>
      (.response (.obj [
        ("success", .bool true),
        ("message_id", .str message_id),
        ("message", .str "Email archived successfully")]),
       [.modify_message_labels message_id request])

/-- Embedding of gmail_unarchive_email: add the INBOX label. -/
def gmail_unarchive_email (ctx : Context) (net : GmailService) (message_id : String) :
    HandlerResult × List ServiceCall :=
  match get_access_token ctx with
  | .error e => (.raised e, [])
  | .ok access_token =>
    let gmail_service := get_gmail_service net access_token
    let request : ModifyLabelsRequest := { add_label_ids := some ["INBOX"] }
    match gmail_service.modify_message_labels message_id request with
    | .error e => (.response (errEnvelope e), [.modify_message_labels message_id request])
    | .ok _ =>
      (.response (.obj [
        ("success", .bool true),
        ("message_id", .str message_id),
        ("message", .str "Email unarchived successfully")]),
       [.modify_message_labels message_id request])

/-- Embedding of gmail_delete_email: one delete_message call; a false return
is reported inside the envelope, not raised. -/
def gmail_delete_email (ctx : Context) (net : GmailService) (message_id : String) :
    HandlerResult × List ServiceCall :=
  match get_access_token ctx with
  | .error e => (.raised e, [])
  | .ok access_token =>
    let gmail_service := get_gmail_service net access_token
    match gmail_service.delete_message message_id with
    | .error e => (.response (errEnvelope e), [.delete_message message_id])
    | .ok success =>
      if success then
        (.response (.obj [
          ("success", .bool true),
          ("message_id", .str message_id),
          ("message", .str "Email deleted successfully")]),
         [.delete_message message_id])
      else
        (.response (.obj [
          ("success", .bool false),
          ("message_id", .str message_id),
          ("message", .str "Failed to delete email")]),
         [.delete_message message_id])

/-- Embedding of gmail_add_label: add the parsed label ids. -/
def gmail_add_label (ctx : Context) (net : GmailService) (message_id label_ids : String) :
    HandlerResult × List ServiceCall :=
  match get_access_token ctx with
  | .error e => (.raised e, [])
  | .ok access_token =>
    let gmail_service := get_gmail_service net access_token
    let label_ids_list := parse_comma_separated_list (some label_ids)
    let request : ModifyLabelsRequest := { add_label_ids := label_ids_list }
    match gmail_service.modify_message_labels message_id request with
    | .error e => (.response (errEnvelope e), [.modify_message_labels message_id request])
    | .ok updated_message =>
      (.response (.obj [
        ("success", .bool true),
        ("message_id", .str message_id),
        ("added_labels", Json.ofOptStrList label_ids_list),
        ("current_labels", .arr (updated_message.label_ids.map .str)),
        ("message", .str ("Labels " ++ joinOr label_ids_list "none" ++ " added successfully"))]),
       [.modify_message_labels message_id request])

/-- Embedding of gmail_remove_label: remove the parsed label ids. -/
def gmail_remove_label (ctx : Context) (net : GmailService) (message_id label_ids : String) :
    HandlerResult × List ServiceCall :=
  match get_access_token ctx with
  | .error e => (.raised e, [])
  | .ok access_token =>
    let gmail_service := get_gmail_service net access_token
    let label_ids_list := parse_comma_separated_list (some label_ids)
    let request : ModifyLabelsRequest := { remove_label_ids := label_ids_list }
    match gmail_service.modify_message_labels message_id request with
    | .error e => (.response (errEnvelope e), [.modify_message_labels message_id request])
    | .ok updated_message =>
      (.response (.obj [
        ("success", .bool true),
        ("message_id", .str message_id),
        ("removed_labels", Json.ofOptStrList label_ids_list),
        ("current_labels", .arr (updated_message.label_ids.map .str)),
        ("message", .str ("Labels " ++ joinOr label_ids_list "none" ++ " removed successfully"))]),
       [.modify_message_labels message_id request])

/-- Embedding of gmail_create_label: one create_label call. -/
def gmail_create_label (ctx : Context) (net : GmailService)
    (name : String) (message_list_visibility label_list_visibility : String) :
    HandlerResult × List ServiceCall :=
  match get_access_token ctx with
  | .error e => (.raised e, [])
  | .ok access_token =>
    let gmail_service := get_gmail_service net access_token
    let request : CreateLabelRequest :=
      { name := name, message_list_visibility := message_list_visibility,
        label_list_visibility := label_list_visibility }
    match gmail_service.create_label request with
    | .error e => (.response (errEnvelope e), [.create_label request])
    | .ok label =>
      (.response (.obj [
        ("success", .bool true),
        ("label", label.dump),
        ("message", .str ("Label '" ++ name ++ "' created successfully"))]),
       [.create_label request])

/-! ## Tool handlers: advanced.py -/

/-- Embedding of gmail_forward_email: build a ForwardEmailRequest from the
normalized recipients and perform one forward_message call. -/
def gmail_forward_email (ctx : Context) (net : GmailService) (message_id «to» : String)
    (cc bcc additional_message : Option String) :
    HandlerResult × List ServiceCall :=
  match get_access_token ctx with
  | .error e => (.raised e, [])
  | .ok access_token =>
    let gmail_service := get_gmail_service net access_token
    let to_list := parse_comma_separated_list (some «to»)
    let cc_list := parse_comma_separated_list cc
    let bcc_list := parse_comma_separated_list bcc
    let request : ForwardEmailRequest :=
      { «to» := to_list, cc := cc_list, bcc := bcc_list,
        additional_message := additional_message }
    match gmail_service.forward_message message_id request with
    | .error e => (.response (errEnvelope e), [.forward_message message_id request])
    | .ok forwarded_message_id =>
      (.response (.obj [
        ("success", .bool true),
        ("forwarded_message_id", .str forwarded_message_id),
        ("original_message_id", .str message_id),
        ("message", .str ("Email forwarded successfully to " ++ joinOr to_list "recipients"))]),
       [.forward_message message_id request])

/-- Embedding of gmail_move_to_folder: add the target label, and also remove
INBOX when remove_inbox is set and the target label is not INBOX. -/
def gmail_move_to_folder (ctx : Context) (net : GmailService)
    (message_id folder_label_id : String) (remove_inbox : Bool) :
    HandlerResult × List ServiceCall :=
  match get_access_token ctx with
  | .error e => (.raised e, [])
  | .ok access_token =>
    let gmail_service := get_gmail_service net access_token
    let add_labels := [folder_label_id]
    let remove_labels :=
      if remove_inbox && !(["INBOX"].contains folder_label_id) then ["INBOX"] else []
    let request : ModifyLabelsRequest :=
      { add_label_ids := some add_labels,
        remove_label_ids := if remove_labels.isEmpty then none else some remove_labels }
    match gmail_service.modify_message_labels message_id request with
    | .error e => (.response (errEnvelope e), [.modify_message_labels message_id request])
    | .ok updated_message =>
      (.response (.obj [
        ("success", .bool true),
        ("message_id", .str message_id),
        ("moved_to", .str folder_label_id),
        ("current_labels", .arr (updated_message.label_ids.map .str)),
        ("message", .str ("Email moved to " ++ folder_label_id))]),
       [.modify_message_labels message_id request])

/-- Embedding of gmail_get_threads: one list_threads call; note that both the
success payload and the error payload of this handler carry no success field. -/
def gmail_get_threads (ctx : Context) (net : GmailService) (max_results : Int)
    (label_ids query : Option String) (include_spam_trash : Bool)
    (page_token after before : Option String) :
    HandlerResult × List ServiceCall :=
  match get_access_token ctx with
  | .error e => (.raised e, [])
  | .ok access_token =>
    let gmail_service := get_gmail_service net access_token
    let label_ids_list := parse_comma_separated_list label_ids
    let request : ThreadListRequest :=
      { max_results := max_results, label_ids := label_ids_list, q := query,
        include_spam_trash := include_spam_trash, page_token := page_token,
        after := after, before := before }
    match gmail_service.list_threads request with
    | .error e => (.response (.obj [("error", .str e)]), [.list_threads request])
    | .ok response =>
      (.response (.obj [
        ("threads", .arr response.threads),
        ("next_page_token", Json.ofOptStr response.next_page_token),
        ("result_size_estimate", .num response.result_size_estimate),
        ("count", .num response.threads.length)]),
       [.list_threads request])

/-- Embedding of gmail_get_thread_by_id: one get_thread call. -/
def gmail_get_thread_by_id (ctx : Context) (net : GmailService)
    (thread_id : String) (format : MessageFormat) :
    HandlerResult × List ServiceCall :=
  match get_access_token ctx with
  | .error e => (.raised e, [])
  | .ok access_token =>
    let gmail_service := get_gmail_service net access_token
    match gmail_service.get_thread thread_id format with
    | .error e => (.response (errEnvelope e), [.get_thread thread_id format])
    | .ok thread =>
      (.response (.obj [
        ("success", .bool true),
        ("thread", thread.dump),
        ("message_count", .num thread.messages.length)]),
       [.get_thread thread_id format])

/-- Embedding of gmail_create_draft.  After token extraction and the body
validation check, it builds a CreateDraftRequest and performs one create_draft
call. -/
def gmail_create_draft (ctx : Context) (net : GmailService) («to» subject : String)
    (body_text body_html cc bcc thread_id in_reply_to : Option String) :
    HandlerResult × List ServiceCall :=
  match get_access_token ctx with
  | .error e => (.raised e, [])
  | .ok access_token =>
    let gmail_service := get_gmail_service net access_token
    if !pyTruthy body_text && !pyTruthy body_html then
      (.response (.obj [("error", .str "Either body_text or body_html must be provided")]), [])
    else
      let to_list := parse_comma_separated_list (some «to»)
      let cc_list := parse_comma_separated_list cc
      let bcc_list := parse_comma_separated_list bcc
      let request : CreateDraftRequest :=
        { «to» := to_list, subject := subject, body_text := body_text,
          body_html := body_html, cc := cc_list, bcc := bcc_list,
          thread_id := thread_id, in_reply_to := in_reply_to }
      match gmail_service.create_draft request with
      | .error e => (.response (errEnvelope e), [.create_draft request])
      | .ok draft_id =>
        (.response (.obj [
          ("success", .bool true),
          ("draft_id", .str draft_id),
          ("message", .str ("Draft created successfully for " ++ joinOr to_list "recipients"))]),
         [.create_draft request])

/-- Embedding of gmail_get_drafts: one list_drafts call; like the thread
listing, both its success payload and its error payload carry no success field. -/
def gmail_get_drafts (ctx : Context) (net : GmailService) (max_results : Int)
    (page_token : Option String) (format : MessageFormat)
    (query after before : Option String) :
    HandlerResult × List ServiceCall :=
  match get_access_token ctx with
  | .error e => (.raised e, [])
  | .ok access_token =>
    let gmail_service := get_gmail_service net access_token
    let request : DraftListRequest :=
      { max_results := max_results, page_token := page_token,
        message_format := format, q := query, after := after, before := before }
    match gmail_service.list_drafts request with
    | .error e => (.response (.obj [("error", .str e)]), [.list_drafts request])
    | .ok response =>
      (.response (.obj [
        ("drafts", .arr response.drafts),
        ("next_page_token", Json.ofOptStr response.next_page_token),
        ("result_size_estimate", .num response.result_size_estimate),
        ("count", .num response.drafts.length)]),
       [.list_drafts request])

/-- Embedding of gmail_get_draft_by_id: one get_draft call. -/
def gmail_get_draft_by_id (ctx : Context) (net : GmailService)
    (draft_id : String) (format : MessageFormat) :
    HandlerResult × List ServiceCall :=
  match get_access_token ctx with
  | .error e => (.raised e, [])
  | .ok access_token =>
    let gmail_service := get_gmail_service net access_token
    match gmail_service.get_draft draft_id format with
    | .error e => (.response (errEnvelope e), [.get_draft draft_id format])
    | .ok draft =>
      (.response (.obj [
        ("success", .bool true),
        ("draft", draft.dump),
        ("message", .str ("Draft " ++ draft_id ++ " retrieved successfully"))]),
       [.get_draft draft_id format])

/-- Embedding of gmail_send_draft: one send_draft call. -/
def gmail_send_draft (ctx : Context) (net : GmailService) (draft_id : String) :
    HandlerResult × List ServiceCall :=
  match get_access_token ctx with
  | .error e => (.raised e, [])
  | .ok access_token =>
    let gmail_service := get_gmail_service net access_token
    match gmail_service.send_draft draft_id with
    | .error e => (.response (errEnvelope e), [.send_draft draft_id])
    | .ok message_id =>
      (.response (.obj [
        ("success", .bool true),
        ("message_id", .str message_id),
        ("draft_id", .str draft_id),
        ("message", .str "Draft sent successfully")]),
       [.send_draft draft_id])

/-- Embedding of gmail_get_attachments.  The source branches on the Python
truthiness of attachment_id: a truthy id performs one get_attachment call and
returns that single attachment; otherwise one get_message call lists all
attachment metadata of the message. -/
def gmail_get_attachments (ctx : Context) (net : GmailService)
    (message_id : String) (attachment_id : Option String) :
    HandlerResult × List ServiceCall :=
  match get_access_token ctx with
  | .error e => (.raised e, [])
  | .ok access_token =>
    let gmail_service := get_gmail_service net access_token
    if pyTruthy attachment_id then
      let a := attachment_id.getD ""
      match gmail_service.get_attachment message_id a with
      | .error e => (.response (errEnvelope e), [.get_attachment message_id a])
      | .ok attachment =>
        (.response (.obj [
          ("success", .bool true),
          ("attachment", attachment.dump),
          ("message", .str ("Attachment " ++ a ++ " downloaded successfully"))]),
         [.get_attachment message_id a])
    else
      match gmail_service.get_message message_id with
      | .error e => (.response (errEnvelope e), [.get_message message_id])
      | .ok message =>
        (.response (.obj [
          ("success", .bool true),
          ("message_id", .str message_id),
          ("attachments", .arr (message.attachments.map fun att => att.dump)),
          ("count", .num message.attachments.length),
          ("message", .str ("Found " ++ toString message.attachments.length ++ " attachments"))]),
         [.get_message message_id])

/-! ## The whole tool surface

To quantify over every tool handler, a ToolCall packages one invocation of
any of the nineteen registered tools with its parameters, and runTool
dispatches it. -/

/-- One invocation of any registered tool, with its parameters. -/
inductive ToolCall : Type where
  | send_email («to» subject : String) (body_text body_html cc bcc attachments : Option String)
  | reply_to_email (message_id : String) (body_text body_html : Option String) (reply_all : Bool)
  | mark_as_read (message_id : String)
  | mark_as_unread (message_id : String)
  | archive_email (message_id : String)
  | unarchive_email (message_id : String)
  | delete_email (message_id : String)
  | add_label (message_id label_ids : String)
  | remove_label (message_id label_ids : String)
  | create_label (name message_list_visibility label_list_visibility : String)
  | forward_email (message_id «to» : String) (cc bcc additional_message : Option String)
  | move_to_folder (message_id folder_label_id : String) (remove_inbox : Bool)
  | get_threads (max_results : Int) (label_ids query : Option String)
      (include_spam_trash : Bool) (page_token after before : Option String)
  | get_thread_by_id (thread_id : String) (format : MessageFormat)
  | create_draft («to» subject : String)
      (body_text body_html cc bcc thread_id in_reply_to : Option String)
  | get_drafts (max_results : Int) (page_token : Option String) (format : MessageFormat)
      (query after before : Option String)
  | get_draft_by_id (draft_id : String) (format : MessageFormat)
  | send_draft (draft_id : String)
  | get_attachments (message_id : String) (attachment_id : Option String)

/-- Dispatch one tool invocation to its handler. -/
def runTool (ctx : Context) (net : GmailService) : ToolCall → HandlerResult × List ServiceCall
  | .send_email «to» subject bt bh cc bcc atts =>
    gmail_send_email ctx net «to» subject bt bh cc bcc atts
  | .reply_to_email mid bt bh ra => gmail_reply_to_email ctx net mid bt bh ra
  | .mark_as_read mid => gmail_mark_as_read ctx net mid
  | .mark_as_unread mid => gmail_mark_as_unread ctx net mid
  | .archive_email mid => gmail_archive_email ctx net mid
  | .unarchive_email mid => gmail_unarchive_email ctx net mid
  | .delete_email mid => gmail_delete_email ctx net mid
  | .add_label mid lids => gmail_add_label ctx net mid lids
  | .remove_label mid lids => gmail_remove_label ctx net mid lids
  | .create_label n mlv llv => gmail_create_label ctx net n mlv llv
  | .forward_email mid «to» cc bcc am => gmail_forward_email ctx net mid «to» cc bcc am
  | .move_to_folder mid fl ri => gmail_move_to_folder ctx net mid fl ri
  | .get_threads mr lids q ist pt a b => gmail_get_threads ctx net mr lids q ist pt a b
  | .get_thread_by_id tid fmt => gmail_get_thread_by_id ctx net tid fmt
  | .create_draft «to» subject bt bh cc bcc tid irt =>
    gmail_create_draft ctx net «to» subject bt bh cc bcc tid irt
  | .get_drafts mr pt fmt q a b => gmail_get_drafts ctx net mr pt fmt q a b
  | .get_draft_by_id did fmt => gmail_get_draft_by_id ctx net did fmt
  | .send_draft did => gmail_send_draft ctx net did
  | .get_attachments mid aid => gmail_get_attachments ctx net mid aid

/-! ## Envelope predicates and concrete fixtures -/

/-- A JSON object carries an error field. -/
def hasError (j : Json) : Bool := (j.getField "error").isSome

/-- The tools whose handlers validate that a body variant is present. -/
def isBodyTool : ToolCall → Bool
  | .send_email .. => true
  | .reply_to_email .. => true
  | .create_draft .. => true
  | _ => false

/-- The two listing tools (threads and drafts). -/
def isListingTool : ToolCall → Bool
  | .get_threads .. => true
  | .get_drafts .. => true
  | _ => false

/-- The delete tool. -/
def isDeleteTool : ToolCall → Bool
  | .delete_email .. => true
  | _ => false

/-- Whether the invocation passes the handler's body-presence validation
(trivially true for tools without that validation). -/
def passesBodyValidation : ToolCall → Bool
  | .send_email _ _ bt bh _ _ _ => pyTruthy bt || pyTruthy bh
  | .reply_to_email _ bt bh _ => pyTruthy bt || pyTruthy bh
  | .create_draft _ _ bt bh _ _ _ _ => pyTruthy bt || pyTruthy bh
  | _ => true

/-- A context carrying a well-formed bearer header. -/
def ctxGood : Context := ⟨some ⟨⟨[("Authorization", "Bearer tok123")]⟩⟩⟩

/-- A context whose request has no Authorization header. -/
def ctxBad : Context := ⟨some ⟨⟨[]⟩⟩⟩

/-- A service behavior on which every method raises an exception with text e. -/
def failingService (e : String) : GmailService :=
  { token_info := ⟨"", "", ""⟩,
    send_message := fun _ => .error e,
    get_message := fun _ => .error e,
    modify_message_labels := fun _ _ => .error e,
    delete_message := fun _ => .error e,
    create_label := fun _ => .error e,
    forward_message := fun _ _ => .error e,
    list_threads := fun _ => .error e,
    get_thread := fun _ _ => .error e,
    create_draft := fun _ => .error e,
    list_drafts := fun _ => .error e,
    get_draft := fun _ _ => .error e,
    send_draft := fun _ => .error e,
    get_attachment := fun _ _ => .error e }

/-- A message fixture with a sender, a plain subject and two attachments. -/
def msgHello : EmailMessage :=
  { sender := some "alice@x.com", recipient := some "bob@x.com",
    subject := some "Hello", thread_id := some "t1",
    attachments := [⟨.str "att1"⟩, ⟨.str "att2"⟩] }

/-- A service behavior on which every method succeeds with fixed values. -/
def okService : GmailService :=
  { token_info := ⟨"", "", ""⟩,
    send_message := fun _ => .ok "m1",
    get_message := fun _ => .ok msgHello,
    modify_message_labels := fun _ _ => .ok ⟨["INBOX"]⟩,
    delete_message := fun _ => .ok true,
    create_label := fun _ => .ok ⟨.str "label"⟩,
    forward_message := fun _ _ => .ok "f1",
    list_threads := fun _ => .ok ⟨[], none, 0⟩,
    get_thread := fun _ _ => .ok ⟨.str "thread", []⟩,
    create_draft := fun _ => .ok "d1",
    list_drafts := fun _ => .ok ⟨[], none, 0⟩,
    get_draft := fun _ _ => .ok ⟨.str "draft"⟩,
    send_draft := fun _ => .ok "m2",
    get_attachment := fun _ _ => .ok ⟨.str "payload"⟩ }

/-- Like okService, but delete_message reports False. -/
def deleteFalseService : GmailService :=
  { okService with delete_message := fun _ => .ok false }

/-- Like okService, but the fetched message's subject starts with Re: without
the trailing space. -/
def subjNoSpaceService : GmailService :=
  { okService with get_message := fun _ => .ok { msgHello with subject := some "Re:Hi" } }

/-! ## Claims -/

/-- C3: parse_comma_separated_list returns absence on absent or blank input;
otherwise it returns the comma-separated segments trimmed, dropping segments
that are blank after trimming, preserving relative order (sublist of the
trimmed segments) and multiplicity (no deduplication); the example input
normalizes as the spec states. -/
theorem C3_parse_list_normalization :
    parse_comma_separated_list none = none ∧
    (∀ s : String, pyStrip s = "" → parse_comma_separated_list (some s) = none) ∧
    (∀ s : String, ∀ l : List String, parse_comma_separated_list (some s) = some l →
      l.Sublist ((pySplitComma s).map pyStrip) ∧
      (∀ x : String, x ≠ "" → l.count x = ((pySplitComma s).map pyStrip).count x) ∧
      (∀ x ∈ l, x ≠ "" ∧ ∃ seg ∈ pySplitComma s, x = pyStrip seg)) ∧
    parse_comma_separated_list (some "a@x.com, ,b@x.com") = some ["a@x.com", "b@x.com"] := by
  refine ⟨rfl, ?_, ?_, by decide⟩
  · intro s h
    simp [parse_comma_separated_list, h]
  · intro s l h
    rw [parse_comma_separated_list] at h
    by_cases hb : (pyStrip s).data.isEmpty
    · simp [hb] at h
    · simp only [hb, if_neg, Bool.false_eq_true, not_false_eq_true, if_false] at h
      have hl : l = ((pySplitComma s).map pyStrip).filter fun item => !item.data.isEmpty :=
        (Option.some.inj h).symm
      subst hl
      refine ⟨List.filter_sublist _, ?_, ?_⟩
      · intro x hx
        refine List.count_filter ?_
        show (!x.data.isEmpty) = true
        cases hempty : x.data.isEmpty
        · rfl
        · exact absurd (String.ext_iff.mpr (List.isEmpty_iff.mp hempty)) hx
      · intro x hx
        have hmem := List.mem_filter.mp hx
        rcases List.mem_map.mp hmem.1 with ⟨seg, hseg, hxeq⟩
        refine ⟨?_, seg, hseg, hxeq.symm⟩
        intro hxe
        subst hxe
        exact Bool.noConfusion hmem.2

/-- C9: when the underlying delete call returns False, the delete handler
returns the success-false payload with the message id and the fixed message
text, as a response rather than a raised fault. -/
theorem C9_delete_false_payload (ctx : Context) (net : GmailService) (message_id t : String)
    (hauth : get_access_token ctx = .ok t)
    (hdel : net.delete_message message_id = .ok false) :
    gmail_delete_email ctx net message_id =
      (.response (.obj [
        ("success", .bool false),
        ("message_id", .str message_id),
        ("message", .str "Failed to delete email")]),
       [.delete_message message_id]) := by
  simp only [gmail_delete_email, hauth]
  simp [show (get_gmail_service net t).delete_message message_id = .ok false from hdel]

/-- Witness for C9 at a concrete context, service and message id. -/
theorem C9_witness :
    gmail_delete_email ctxGood deleteFalseService "m7" =
      (.response (.obj [
        ("success", .bool false),
        ("message_id", .str "m7"),
        ("message", .str "Failed to delete email")]),
       [.delete_message "m7"]) :=
  C9_delete_false_payload ctxGood deleteFalseService "m7" "tok123" rfl rfl

/-- Witness for C3 at concrete inputs, discharging the blank-input and
parsed-output hypotheses. -/
theorem C3_witness :
    parse_comma_separated_list (some "   ") = none ∧
    List.Sublist ["a@x.com", "b@x.com"] ((pySplitComma "a@x.com, ,b@x.com").map pyStrip) ∧
    List.count "a@x.com" ["a@x.com", "b@x.com"] =
      List.count "a@x.com" ((pySplitComma "a@x.com, ,b@x.com").map pyStrip) :=
  ⟨C3_parse_list_normalization.2.1 "   " (by decide),
   (C3_parse_list_normalization.2.2.1 "a@x.com, ,b@x.com" ["a@x.com", "b@x.com"] (by decide)).1,
   (C3_parse_list_normalization.2.2.1 "a@x.com, ,b@x.com" ["a@x.com", "b@x.com"]
     (by decide)).2.1 "a@x.com" (by decide)⟩

/-- C2: with a valid bearer token, an invocation of send, reply or create-draft
in which both body parameters are absent returns the validation payload, whose
error field is set, and performs no call on the service collaborator (the call
trace is empty). -/
theorem C2_missing_body_no_service_call (ctx : Context) (net : GmailService) (t : String)
    (hauth : get_access_token ctx = .ok t) :
    (Json.obj [("error", .str "Either body_text or body_html must be provided")]).getField
        "error" = some (.str "Either body_text or body_html must be provided") ∧
    (∀ «to» subject cc bcc attachments,
      gmail_send_email ctx net «to» subject none none cc bcc attachments =
        (.response (.obj [("error", .str "Either body_text or body_html must be provided")]),
         [])) ∧
    (∀ message_id reply_all,
      gmail_reply_to_email ctx net message_id none none reply_all =
        (.response (.obj [("error", .str "Either body_text or body_html must be provided")]),
         [])) ∧
    (∀ «to» subject cc bcc thread_id in_reply_to,
      gmail_create_draft ctx net «to» subject none none cc bcc thread_id in_reply_to =
        (.response (.obj [("error", .str "Either body_text or body_html must be provided")]),
         [])) := by
  refine ⟨rfl, ?_, ?_, ?_⟩ <;> intros <;>
    simp [gmail_send_email, gmail_reply_to_email, gmail_create_draft, hauth, pyTruthy]

/-- Witness for C2 at a concrete context and service. -/
theorem C2_witness :
    gmail_send_email ctxGood okService "bob@x.com" "Hi" none none none none none =
      (.response (.obj [("error", .str "Either body_text or body_html must be provided")]),
       []) :=
  (C2_missing_body_no_service_call ctxGood okService "tok123" rfl).2.1
    "bob@x.com" "Hi" none none none

/-- C7: the move-to-folder label request adds exactly the target label, and
removes INBOX exactly when the caller did not suppress removal (remove_inbox
true) and the target label is not INBOX itself; targeting INBOX never removes
INBOX, whatever the flag. -/
theorem C7_move_to_folder_request (ctx : Context) (net : GmailService)
    (message_id folder_label_id t : String) (remove_inbox : Bool)
    (hauth : get_access_token ctx = .ok t) :
    ∃ req : ModifyLabelsRequest,
      (gmail_move_to_folder ctx net message_id folder_label_id remove_inbox).2 =
        [.modify_message_labels message_id req] ∧
      req.add_label_ids = some [folder_label_id] ∧
      (req.remove_label_ids = some ["INBOX"] ∨ req.remove_label_ids = none) ∧
      (req.remove_label_ids = some ["INBOX"] ↔
        remove_inbox = true ∧ folder_label_id ≠ "INBOX") ∧
      (folder_label_id = "INBOX" → req.remove_label_ids = none) := by
  by_cases hf : folder_label_id = "INBOX"
  · subst hf
    refine ⟨(⟨some ["INBOX"], none⟩ : ModifyLabelsRequest), ?_, rfl,
      Or.inr rfl, ⟨fun h => Option.noConfusion h, fun hh => absurd rfl hh.2⟩, fun _ => rfl⟩
    rw [gmail_move_to_folder, hauth]
    have hcond : (remove_inbox && !(["INBOX"].contains "INBOX")) = false := by simp
    simp only [hcond]
    split <;> rfl
  · by_cases hr : remove_inbox = true
    · subst hr
      refine ⟨(⟨some [folder_label_id], some ["INBOX"]⟩ : ModifyLabelsRequest), ?_, rfl,
        Or.inl rfl, ⟨fun _ => ⟨rfl, hf⟩, fun _ => rfl⟩, fun h => absurd h hf⟩
      rw [gmail_move_to_folder, hauth]
      have hcond : (true && !(["INBOX"].contains folder_label_id)) = true := by
        simp [List.contains, hf]
      simp only [hcond]
      split <;> rfl
    · have hr0 : remove_inbox = false := by
        cases remove_inbox
        · rfl
        · exact absurd rfl hr
      subst hr0
      refine ⟨(⟨some [folder_label_id], none⟩ : ModifyLabelsRequest), ?_, rfl,
        Or.inr rfl, ⟨fun h => Option.noConfusion h, fun hh => Bool.noConfusion hh.1⟩,
        fun _ => rfl⟩
      simp only [gmail_move_to_folder, hauth]
      split <;> rfl

/-- Witness for C7: moving to TRASH with removal enabled. -/
theorem C7_witness :
    ∃ req : ModifyLabelsRequest,
      (gmail_move_to_folder ctxGood okService "m1" "TRASH" true).2 =
        [.modify_message_labels "m1" req] ∧
      req.add_label_ids = some ["TRASH"] ∧
      (req.remove_label_ids = some ["INBOX"] ∨ req.remove_label_ids = none) ∧
      (req.remove_label_ids = some ["INBOX"] ↔ true = true ∧ "TRASH" ≠ "INBOX") ∧
      ("TRASH" = "INBOX" → req.remove_label_ids = none) :=
  C7_move_to_folder_request ctxGood okService "m1" "TRASH" "tok123" true rfl

/-- C10: for a reply with a body present, the request sent to the service
collaborator addresses exactly the original sender (the empty list when the
original has no sender), and the handler's outcome does not depend on the
reply_all flag at all. -/
theorem C10_reply_recipients (ctx : Context) (net : GmailService) (message_id t : String)
    (body_text body_html : Option String) (reply_all : Bool) (orig : EmailMessage)
    (hauth : get_access_token ctx = .ok t)
    (hbody : (pyTruthy body_text || pyTruthy body_html) = true)
    (horig : net.get_message message_id = .ok orig) :
    (∃ req : SendEmailRequest,
      (gmail_reply_to_email ctx net message_id body_text body_html reply_all).2 =
        [.get_message message_id, .send_message req] ∧
      (orig.sender = none → req.«to» = some []) ∧
      (∀ s : String, orig.sender = some s → s ≠ "" → req.«to» = some [s])) ∧
    (∀ ra₁ ra₂ : Bool,
      gmail_reply_to_email ctx net message_id body_text body_html ra₁ =
        gmail_reply_to_email ctx net message_id body_text body_html ra₂) := by
  have hval : (!pyTruthy body_text && !pyTruthy body_html) = false := by
    rw [← Bool.not_or, hbody]
    rfl
  constructor
  · rw [gmail_reply_to_email, hauth]
    simp only [hval, Bool.false_eq_true, if_false,
      show (get_gmail_service net t).get_message message_id = .ok orig from horig]
    refine ⟨{ «to» := some (if pyTruthy orig.sender then [orig.sender.getD ""] else []),
              subject := if !pyStartsWith (orig.subject.getD "") "Re:"
                then "Re: " ++ orig.subject.getD "" else orig.subject.getD "",
              body_text := body_text, body_html := body_html,
              thread_id := orig.thread_id, in_reply_to := some message_id }, ?_, ?_, ?_⟩
    · split <;> rfl
    · intro hs
      simp [hs, pyTruthy]
    · intro s hs hne
      have hst : pyTruthy (some s) = true := by
        cases hempty : s.data.isEmpty
        · simp [pyTruthy, hempty]
        · exact absurd (String.ext_iff.mpr (List.isEmpty_iff.mp hempty)) hne
      simp [hs, hst]
  · intro ra₁ ra₂
    rfl

/-- Witness for C10: a concrete reply whose original sender is alice. -/
theorem C10_witness :
    (∃ req : SendEmailRequest,
      (gmail_reply_to_email ctxGood okService "m1" (some "body") none true).2 =
        [.get_message "m1", .send_message req] ∧
      (msgHello.sender = none → req.«to» = some []) ∧
      (∀ s : String, msgHello.sender = some s → s ≠ "" → req.«to» = some [s])) ∧
    (∀ ra₁ ra₂ : Bool,
      gmail_reply_to_email ctxGood okService "m1" (some "body") none ra₁ =
        gmail_reply_to_email ctxGood okService "m1" (some "body") none ra₂) :=
  C10_reply_recipients ctxGood okService "m1" "tok123" (some "body") none true msgHello
    rfl rfl rfl

/-- C8: get-attachments with no attachment id performs a single get_message
call on the parent message and returns all its attachment metadata with their
count; with a (truthy) attachment id it performs a single get_attachment call
and returns exactly that one attachment payload. -/
theorem C8_get_attachments_branches (ctx : Context) (net : GmailService)
    (message_id t : String) (hauth : get_access_token ctx = .ok t) :
    (∀ msg : EmailMessage, net.get_message message_id = .ok msg →
      gmail_get_attachments ctx net message_id none =
        (.response (.obj [
          ("success", .bool true),
          ("message_id", .str message_id),
          ("attachments", .arr (msg.attachments.map fun att => att.dump)),
          ("count", .num msg.attachments.length),
          ("message", .str ("Found " ++ toString msg.attachments.length ++ " attachments"))]),
         [.get_message message_id])) ∧
    (∀ a : String, a ≠ "" → ∀ att : Attachment, net.get_attachment message_id a = .ok att →
      gmail_get_attachments ctx net message_id (some a) =
        (.response (.obj [
          ("success", .bool true),
          ("attachment", att.dump),
          ("message", .str ("Attachment " ++ a ++ " downloaded successfully"))]),
         [.get_attachment message_id a])) := by
  constructor
  · intro msg hmsg
    simp only [gmail_get_attachments, hauth]
    simp [show (get_gmail_service net t).get_message message_id = .ok msg from hmsg, pyTruthy]
  · intro a ha att hatt
    have hta : pyTruthy (some a) = true := by
      cases hempty : a.data.isEmpty
      · simp [pyTruthy, hempty]
      · exact absurd (String.ext_iff.mpr (List.isEmpty_iff.mp hempty)) ha
    simp only [gmail_get_attachments, hauth]
    simp [hta, show (get_gmail_service net t).get_attachment message_id a = .ok att from hatt]

/-- Witness for C8 at a concrete message carrying two attachments. -/
theorem C8_witness :
    gmail_get_attachments ctxGood okService "m1" none =
      (.response (.obj [
        ("success", .bool true),
        ("message_id", .str "m1"),
        ("attachments", .arr (msgHello.attachments.map fun att => att.dump)),
        ("count", .num msgHello.attachments.length),
        ("message", .str ("Found " ++ toString msgHello.attachments.length ++ " attachments"))]),
       [.get_message "m1"]) ∧
    gmail_get_attachments ctxGood okService "m1" (some "a9") =
      (.response (.obj [
        ("success", .bool true),
        ("attachment", .str "payload"),
        ("message", .str ("Attachment " ++ "a9" ++ " downloaded successfully"))]),
       [.get_attachment "m1" "a9"]) :=
  ⟨(C8_get_attachments_branches ctxGood okService "m1" "tok123" rfl).1 msgHello rfl,
   (C8_get_attachments_branches ctxGood okService "m1" "tok123" rfl).2 "a9"
     (by decide) ⟨.str "payload"⟩ rfl⟩

/-- A context whose bearer token itself contains the scheme marker text. -/
def ctxSneaky : Context := ⟨some ⟨⟨[("Authorization", "Bearer abcBearer x")]⟩⟩⟩

/-- C4 counterexample: on a header that starts with the scheme prefix and
whose remainder contains the marker text again, extraction does not return
the raw remainder of the header: the source replaces every occurrence of the
marker, so the header Bearer abcBearer x yields abcx, not abcBearer x. -/
theorem C4_counterexample :
    pyStartsWith "Bearer abcBearer x" "Bearer " = true ∧
    "Bearer abcBearer x" = "Bearer " ++ "abcBearer x" ∧
    get_access_token ctxSneaky = .ok "abcx" ∧
    "abcx" ≠ "abcBearer x" :=
  ⟨rfl, rfl, rfl, by decide⟩

/-- C4 amended: a missing or malformed Authorization header fails with the
fixed 401 Unauthorized message, and in that situation every tool handler
propagates the fault without performing any service call; a well-formed
header yields the header text with every occurrence of the scheme marker
removed (which equals the raw remainder whenever the remainder itself does
not contain the marker, as in the concrete instance recorded here). -/
theorem C4_amended :
    (∀ rc : RequestContext, headersGet rc.request.headers "Authorization" = none →
      get_access_token ⟨some rc⟩ = .error ⟨401, "No valid access token provided"⟩) ∧
    (∀ rc : RequestContext, ∀ h : String,
      headersGet rc.request.headers "Authorization" = some h →
      pyStartsWith h "Bearer " = false →
      get_access_token ⟨some rc⟩ = .error ⟨401, "No valid access token provided"⟩) ∧
    (∀ ctx : Context, ∀ net : GmailService, ∀ call : ToolCall, ∀ e : HTTPException,
      get_access_token ctx = .error e → runTool ctx net call = (.raised e, [])) ∧
    (∀ rc : RequestContext, ∀ h : String,
      headersGet rc.request.headers "Authorization" = some h →
      pyStartsWith h "Bearer " = true →
      get_access_token ⟨some rc⟩ = .ok (pyReplace h "Bearer " "")) ∧
    get_access_token ctxGood = .ok "tok123" := by
  refine ⟨?_, ?_, ?_, ?_, rfl⟩
  · intro rc hh
    rw [get_access_token]
    simp only [hh]
  · intro rc h hh hpre
    rw [get_access_token]
    simp only [hh, hpre, Bool.not_false, Bool.or_true, if_true]
  · intro ctx net call e hauth
    cases call <;>
      simp [runTool, gmail_send_email, gmail_reply_to_email, gmail_mark_as_read,
        gmail_mark_as_unread, gmail_archive_email, gmail_unarchive_email,
        gmail_delete_email, gmail_add_label, gmail_remove_label, gmail_create_label,
        gmail_forward_email, gmail_move_to_folder, gmail_get_threads,
        gmail_get_thread_by_id, gmail_create_draft, gmail_get_drafts,
        gmail_get_draft_by_id, gmail_send_draft, gmail_get_attachments, hauth]
  · intro rc h hh hpre
    have hne : h.data.isEmpty = false := by
      cases hdata : h.data with
      | nil =>
        rw [pyStartsWith, hdata] at hpre
        exact absurd hpre (by decide)
      | cons c cs => rfl
    rw [get_access_token]
    simp only [hh, hne, hpre, Bool.not_true, Bool.or_false, Bool.false_eq_true, if_false]

/-- Witness for C4 amended, exercising the missing-header 401, the
propagation with an empty trace through a handler, and the well-formed case. -/
theorem C4_witness :
    get_access_token ctxBad = .error ⟨401, "No valid access token provided"⟩ ∧
    runTool ctxBad okService (.mark_as_read "m1") =
      (.raised ⟨401, "No valid access token provided"⟩, []) ∧
    get_access_token ctxGood = .ok (pyReplace "Bearer tok123" "Bearer " "") :=
  ⟨C4_amended.1 ⟨⟨[]⟩⟩ rfl,
   C4_amended.2.2.1 ctxBad okService (.mark_as_read "m1") ⟨401, "No valid access token provided"⟩
     (C4_amended.1 ⟨⟨[]⟩⟩ rfl),
   C4_amended.2.2.2.1 ⟨⟨[("Authorization", "Bearer tok123")]⟩⟩ "Bearer tok123" rfl rfl⟩

/-- C6 counterexample: for an original subject Re:Hi (colon but no space),
the prefix the claim speaks of, Re: with a trailing space, is not present,
so the claim requires the sent subject to be Re: Re:Hi; but the source only
tests startswith of Re: without the space, so the reply is sent with the
subject unchanged. -/
theorem C6_counterexample :
    pyStartsWith "Re:Hi" "Re: " = false ∧
    (∃ req : SendEmailRequest,
      (gmail_reply_to_email ctxGood subjNoSpaceService "m1" (some "body") none false).2 =
        [.get_message "m1", .send_message req] ∧
      req.subject = "Re:Hi") ∧
    "Re:Hi" ≠ "Re: " ++ "Re:Hi" :=
  ⟨rfl, ⟨_, rfl, rfl⟩, by decide⟩

/-- Prepending the Re: marker with a space yields a string that startswith
the bare Re: marker. -/
theorem re_prefix_starts_with_re (s : String) :
    pyStartsWith ("Re: " ++ s) "Re:" = true := by
  rw [pyStartsWith, String.data_append]
  rfl

/-- C6 amended: the reply handler prefixes Re: followed by a space exactly
when the original subject does not already start with Re: (colon, no space
required); hence a sent reply subject always starts with Re:, subjects
already starting with Re: are kept unchanged, and all other subjects get the
Re: prefix with a space.  The claim's two examples are unaffected. -/
theorem C6_amended (ctx : Context) (net : GmailService) (message_id t : String)
    (body_text body_html : Option String) (reply_all : Bool) (orig : EmailMessage)
    (hauth : get_access_token ctx = .ok t)
    (hbody : (pyTruthy body_text || pyTruthy body_html) = true)
    (horig : net.get_message message_id = .ok orig) :
    ∃ req : SendEmailRequest,
      (gmail_reply_to_email ctx net message_id body_text body_html reply_all).2 =
        [.get_message message_id, .send_message req] ∧
      (pyStartsWith (orig.subject.getD "") "Re:" = true →
        req.subject = orig.subject.getD "") ∧
      (pyStartsWith (orig.subject.getD "") "Re:" = false →
        req.subject = "Re: " ++ orig.subject.getD "") ∧
      pyStartsWith req.subject "Re:" = true := by
  have hval : (!pyTruthy body_text && !pyTruthy body_html) = false := by
    rw [← Bool.not_or, hbody]
    rfl
  rw [gmail_reply_to_email, hauth]
  simp only [hval, Bool.false_eq_true, if_false,
    show (get_gmail_service net t).get_message message_id = .ok orig from horig]
  refine ⟨{ «to» := some (if pyTruthy orig.sender then [orig.sender.getD ""] else []),
            subject := if !pyStartsWith (orig.subject.getD "") "Re:"
              then "Re: " ++ orig.subject.getD "" else orig.subject.getD "",
            body_text := body_text, body_html := body_html,
            thread_id := orig.thread_id, in_reply_to := some message_id }, ?_, ?_, ?_, ?_⟩
  · split <;> rfl
  · intro hs
    simp [hs]
  · intro hs
    simp [hs]
  · cases hs : pyStartsWith (orig.subject.getD "") "Re:"
    · simp only [hs, Bool.not_false, if_true]
      exact re_prefix_starts_with_re (orig.subject.getD "")
    · simp only [hs, Bool.not_true, Bool.false_eq_true, if_false]

/-- Witness for C6 amended: replying to the original subject Hello. -/
theorem C6_witness :
    ∃ req : SendEmailRequest,
      (gmail_reply_to_email ctxGood okService "m1" (some "body") none false).2 =
        [.get_message "m1", .send_message req] ∧
      (pyStartsWith (msgHello.subject.getD "") "Re:" = true →
        req.subject = msgHello.subject.getD "") ∧
      (pyStartsWith (msgHello.subject.getD "") "Re:" = false →
        req.subject = "Re: " ++ msgHello.subject.getD "") ∧
      pyStartsWith req.subject "Re:" = true :=
  C6_amended ctxGood okService "m1" "tok123" (some "body") none false msgHello rfl rfl rfl

/-- C5 counterexample: an exception raised inside the thread-listing service
call is converted to a JSON payload holding only the error field; it carries
no success field at all, so it is not the error-plus-success-false envelope
the claim requires of every handler other than send-email. -/
theorem C5_counterexample :
    (gmail_get_threads ctxGood (failingService "boom") 10 none none false
        none none none).1 =
      .response (.obj [("error", .str "boom")]) ∧
    (Json.obj [("error", .str "boom")]).getField "success" = none :=
  ⟨rfl, rfl⟩

/-- C5 amended: with a valid token and, where the handler validates bodies, a
body present, an exception e raised by the service collaborator is caught and
converted as follows: the send handler re-raises it as an HTTPException with
status 500; the thread-listing and draft-listing handlers return a JSON
payload holding only the error field; every other handler returns the
error-plus-success-false envelope. -/
theorem C5_amended (ctx : Context) (t e : String) (call : ToolCall)
    (hauth : get_access_token ctx = .ok t)
    (hbody : passesBodyValidation call = true) :
    (runTool ctx (failingService e) call).1 =
      (match call with
       | .send_email .. => .raised ⟨500, "Failed to send email: " ++ e⟩
       | .get_threads .. => .response (.obj [("error", .str e)])
       | .get_drafts .. => .response (.obj [("error", .str e)])
       | _ => .response (errEnvelope e)) := by
  cases call with
  | send_email a b bt bh cc bcc atts =>
    have hval : (!pyTruthy bt && !pyTruthy bh) = false := by
      rw [← Bool.not_or, show (pyTruthy bt || pyTruthy bh) = true from hbody]
      rfl
    simp [runTool, gmail_send_email, hauth, hval, failingService, get_gmail_service]
  | reply_to_email mid bt bh ra =>
    have hval : (!pyTruthy bt && !pyTruthy bh) = false := by
      rw [← Bool.not_or, show (pyTruthy bt || pyTruthy bh) = true from hbody]
      rfl
    simp [runTool, gmail_reply_to_email, hauth, hval, failingService, get_gmail_service]
  | create_draft a b bt bh cc bcc tid irt =>
    have hval : (!pyTruthy bt && !pyTruthy bh) = false := by
      rw [← Bool.not_or, show (pyTruthy bt || pyTruthy bh) = true from hbody]
      rfl
    simp [runTool, gmail_create_draft, hauth, hval, failingService, get_gmail_service]
  | mark_as_read mid =>
    simp [runTool, gmail_mark_as_read, hauth, failingService, get_gmail_service]
  | mark_as_unread mid =>
    simp [runTool, gmail_mark_as_unread, hauth, failingService, get_gmail_service]
  | archive_email mid =>
    simp [runTool, gmail_archive_email, hauth, failingService, get_gmail_service]
  | unarchive_email mid =>
    simp [runTool, gmail_unarchive_email, hauth, failingService, get_gmail_service]
  | delete_email mid =>
    simp [runTool, gmail_delete_email, hauth, failingService, get_gmail_service]
  | add_label mid lids =>
    simp [runTool, gmail_add_label, hauth, failingService, get_gmail_service]
  | remove_label mid lids =>
    simp [runTool, gmail_remove_label, hauth, failingService, get_gmail_service]
  | create_label n mlv llv =>
    simp [runTool, gmail_create_label, hauth, failingService, get_gmail_service]
  | forward_email mid a cc bcc am =>
    simp [runTool, gmail_forward_email, hauth, failingService, get_gmail_service]
  | move_to_folder mid fl ri =>
    simp [runTool, gmail_move_to_folder, hauth, failingService, get_gmail_service]
  | get_threads mr lids q ist pt a b =>
    simp [runTool, gmail_get_threads, hauth, failingService, get_gmail_service]
  | get_thread_by_id tid fmt =>
    simp [runTool, gmail_get_thread_by_id, hauth, failingService, get_gmail_service]
  | get_drafts mr pt fmt q a b =>
    simp [runTool, gmail_get_drafts, hauth, failingService, get_gmail_service]
  | get_draft_by_id did fmt =>
    simp [runTool, gmail_get_draft_by_id, hauth, failingService, get_gmail_service]
  | send_draft did =>
    simp [runTool, gmail_send_draft, hauth, failingService, get_gmail_service]
  | get_attachments mid aid =>
    simp only [runTool, gmail_get_attachments, hauth]
    split <;>
      simp [failingService, get_gmail_service]

/-- Witness for C5 amended at a concrete mark-as-read invocation. -/
theorem C5_witness :
    (runTool ctxGood (failingService "boom") (.mark_as_read "m1")).1 =
      .response (errEnvelope "boom") :=
  C5_amended ctxGood "tok123" "boom" (.mark_as_read "m1") rfl rfl

/-- C1 counterexample: the error branch of the draft-listing handler returns
a JSON object with an error field but no success field at all, so not every
non-send failure response includes success false. -/
theorem C1_counterexample :
    (gmail_get_drafts ctxGood (failingService "oops") 10 none .compact
        none none none).1 =
      .response (.obj [("error", .str "oops")]) ∧
    hasError (.obj [("error", .str "oops")]) = true ∧
    (Json.obj [("error", .str "oops")]).getField "success" = none :=
  ⟨rfl, rfl, rfl⟩

/-- C1 amended: every failure response (a returned JSON object carrying an
error field or success false) includes both the error field and success
false, except: the body-validation payloads of send, reply and create-draft
and the error branches of the thread-listing and draft-listing handlers,
which carry only the error field; and the delete handler's failed-delete
payload, which carries success false with a message but no error field.
(The send handler's upstream failure is a raised fault, not a response.) -/
theorem C1_amended (ctx : Context) (net : GmailService) (call : ToolCall) (j : Json)
    (hresp : (runTool ctx net call).1 = .response j)
    (hfail : hasError j = true ∨ j.getField "success" = some (.bool false)) :
    (hasError j = true ∧ j.getField "success" = some (.bool false)) ∨
    (j = .obj [("error", .str "Either body_text or body_html must be provided")] ∧
      isBodyTool call = true) ∨
    (∃ e : String, j = .obj [("error", .str e)] ∧ isListingTool call = true) ∨
    (∃ mid : String, j = .obj [("success", .bool false), ("message_id", .str mid),
      ("message", .str "Failed to delete email")] ∧ isDeleteTool call = true) := by
  cases call <;>
    simp only [runTool, gmail_send_email, gmail_reply_to_email, gmail_mark_as_read,
      gmail_mark_as_unread, gmail_archive_email, gmail_unarchive_email, gmail_delete_email,
      gmail_add_label, gmail_remove_label, gmail_create_label, gmail_forward_email,
      gmail_move_to_folder, gmail_get_threads, gmail_get_thread_by_id, gmail_create_draft,
      gmail_get_drafts, gmail_get_draft_by_id, gmail_send_draft, gmail_get_attachments]
      at hresp
  all_goals (repeat' split at hresp)
  all_goals simp at hresp
  all_goals try subst hresp
  all_goals
    first
    | exact Or.inl ⟨rfl, rfl⟩
    | exact Or.inr (Or.inl ⟨rfl, rfl⟩)
    | exact Or.inr (Or.inr (Or.inl ⟨_, rfl, rfl⟩))
    | exact Or.inr (Or.inr (Or.inr ⟨_, rfl, rfl⟩))
    | exact absurd hfail (fun hf => hf.elim (fun h => Bool.noConfusion h)
        (fun h => Bool.noConfusion (Json.bool.inj (Option.some.inj h))))
    | exact absurd hfail (fun hf => hf.elim (fun h => Bool.noConfusion h)
        (fun h => Option.noConfusion h))

/-- Witness for C1 amended at the draft-listing error branch. -/
theorem C1_witness :
    (hasError (.obj [("error", .str "oops")]) = true ∧
      (Json.obj [("error", .str "oops")]).getField "success" = some (.bool false)) ∨
    ((Json.obj [("error", .str "oops")]) =
      .obj [("error", .str "Either body_text or body_html must be provided")] ∧
      isBodyTool (.get_drafts 10 none .compact none none none) = true) ∨
    (∃ e : String, (Json.obj [("error", .str "oops")]) = .obj [("error", .str e)] ∧
      isListingTool (.get_drafts 10 none .compact none none none) = true) ∨
    (∃ mid : String, (Json.obj [("error", .str "oops")]) =
      .obj [("success", .bool false), ("message_id", .str mid),
        ("message", .str "Failed to delete email")] ∧
      isDeleteTool (.get_drafts 10 none .compact none none none) = true) :=
  C1_amended ctxGood (failingService "oops") (.get_drafts 10 none .compact none none none)
    (.obj [("error", .str "oops")]) rfl (Or.inl rfl)

end GmailMCP
